import Mathlib

/-!
Shallow embedding of the GoMarky document-picture-in-picture core:
the `PictureInPictureWindow` lifecycle controller
(`packages/core/src/PictureInPictureWindow.ts`) and the style-copying
utility `copyDocumentStylesToWindow` (`packages/core/src/utils.ts`).

Windows and listeners are identified by natural numbers.  Platform
interactions (requestWindow, addEventListener/removeEventListener,
window.close, resizeTo/resizeBy, window.focus, console.error, the
configured onOpen/onClose callbacks, and each event delivery to a
registered listener) are recorded as an explicit `Effect` trace, so that
the theorems can speak about exactly which platform requests an
operation performs.  The asynchronous `requestWindow` call inside
`open()` is modelled by passing its outcome (`some w` for resolution
with a window, `none` for rejection) as an argument.
-/

namespace PiP

abbrev Window := Nat

abbrev Listener := Nat

/-- The three event kinds of the controller: `open`, `close`, `statechange`. -/
inductive EventType where
  | evOpen
  | evClose
  | evStatechange
deriving DecidableEq, Repr

/-- The ambient browser environment: whether a `window` object exists and
whether `documentPictureInPicture` is exposed on it. -/
structure Env where
  hasWindow : Bool
  hasCapability : Bool
deriving DecidableEq, Repr

/-- `isDocumentPipSupported()` from `utils.ts`:
`typeof window !== 'undefined' && 'documentPictureInPicture' in window`. -/
def Env.supported (e : Env) : Bool :=
  e.hasWindow && e.hasCapability

/-- `PictureInPictureWindowOptions`.  The `onOpen`/`onClose` callbacks are
modelled by their presence; their invocation is recorded as an effect. -/
structure Options where
  width : Option Nat
  height : Option Nat
  disallowReturnToOpener : Bool
  copyStyles : Bool
  hasOnOpen : Bool
  hasOnClose : Bool
deriving DecidableEq, Repr

/-- A `Partial<PictureInPictureWindowOptions>`: each field is present or
absent, as in a JS object spread. -/
structure OptionsPatch where
  width : Option (Option Nat)
  height : Option (Option Nat)
  disallowReturnToOpener : Option Bool
  copyStyles : Option Bool
  hasOnOpen : Option Bool
  hasOnClose : Option Bool
deriving DecidableEq, Repr

/-- JS object spread `{ ...o, ...p }`: keys present in `p` override `o`. -/
def mergeOptions (o : Options) (p : OptionsPatch) : Options :=
  { width := p.width.getD o.width
    height := p.height.getD o.height
    disallowReturnToOpener := p.disallowReturnToOpener.getD o.disallowReturnToOpener
    copyStyles := p.copyStyles.getD o.copyStyles
    hasOnOpen := p.hasOnOpen.getD o.hasOnOpen
    hasOnClose := p.hasOnClose.getD o.hasOnClose }

/-- The constructor defaults: `{ disallowReturnToOpener: false, copyStyles: true }`
(the remaining keys are absent). -/
def defaultOptions : Options :=
  { width := none
    height := none
    disallowReturnToOpener := false
    copyStyles := true
    hasOnOpen := false
    hasOnClose := false }

/-- `this._options = { disallowReturnToOpener: false, copyStyles: true, ...options }`. -/
def resolveOptions (user : OptionsPatch) : Options :=
  mergeOptions defaultOptions user

/-- An empty patch: `new PictureInPictureWindow()` with no options argument. -/
def emptyPatch : OptionsPatch :=
  { width := none
    height := none
    disallowReturnToOpener := none
    copyStyles := none
    hasOnOpen := none
    hasOnClose := none }

/-- The listener registry `Map<EventType, Set<Listener>>`.  Each JS `Set`
is embedded as a duplicate-free list in insertion order; a kind that was
never subscribed corresponds to the empty list (the `Map` lookup being
`undefined` makes `_emit` iterate over nothing, which is the same). -/
structure Registry where
  openLs : List Listener
  closeLs : List Listener
  stateLs : List Listener
deriving DecidableEq, Repr

def Registry.get (r : Registry) : EventType → List Listener
  | .evOpen => r.openLs
  | .evClose => r.closeLs
  | .evStatechange => r.stateLs

def Registry.set (r : Registry) (t : EventType) (ls : List Listener) : Registry :=
  match t with
  | .evOpen => { r with openLs := ls }
  | .evClose => { r with closeLs := ls }
  | .evStatechange => { r with stateLs := ls }

def emptyRegistry : Registry :=
  { openLs := [], closeLs := [], stateLs := [] }

/-- The snapshot returned by the `state` getter and passed to every
listener: `{ isSupported, isOpen, pipWindow }`. -/
structure Snapshot where
  isSupported : Bool
  isOpen : Bool
  pipWindow : Option Window
deriving DecidableEq, Repr

/-- The controller state: `_options`, `_pipWindow`, `_isOpen`, `_listeners`,
plus `pagehideSubs`, the set of windows on which this controller has a
live `pagehide` listener registered (added by `open()` with
`{ once: true }`, removed by `dispose()` or consumed when it fires). -/
structure Ctrl where
  options : Options
  pipWindow : Option Window
  isOpen : Bool
  registry : Registry
  pagehideSubs : List Window
deriving DecidableEq, Repr

def Ctrl.snapshot (s : Ctrl) (env : Env) : Snapshot :=
  { isSupported := env.supported, isOpen := s.isOpen, pipWindow := s.pipWindow }

/-- The options object handed to `documentPictureInPicture.requestWindow`:
`disallowReturnToOpener` always, `width`/`height` only when defined. -/
structure RequestOptions where
  disallowReturnToOpener : Bool
  width : Option Nat
  height : Option Nat
deriving DecidableEq, Repr

def buildRequestOptions (o : Options) : RequestOptions :=
  { disallowReturnToOpener := o.disallowReturnToOpener
    width := o.width
    height := o.height }

/-- Observable platform interactions and callback/listener invocations. -/
inductive Effect where
  | requestWindow (opts : RequestOptions)
  | addPagehideListener (w : Window)
  | removePagehideListener (w : Window)
  | closeWindow (w : Window)
  | resizeTo (w : Window) (x y : Int)
  | resizeByAmount (w : Window) (dx dy : Int)
  | focusMain
  | copyStylesEff (w : Window)
  | addEnterListener
  | removeEnterListener
  | callOnOpen (w : Window)
  | callOnClose
  | deliver (t : EventType) (l : Listener) (snap : Snapshot)
  | logError
deriving DecidableEq, Repr

/-- `_emit(type)`: look up the listener set for `type` and call every
listener with one freshly computed state snapshot. -/
def emitEffects (env : Env) (s : Ctrl) (t : EventType) : List Effect :=
  (s.registry.get t).map (fun l => Effect.deliver t l (s.snapshot env))

/-- The constructor: state fields initialised, and the `enter` listener
registered on `documentPictureInPicture` when the API is supported. -/
def initCtrl (env : Env) (user : OptionsPatch) : Ctrl × List Effect :=
  ({ options := resolveOptions user
     pipWindow := none
     isOpen := false
     registry := emptyRegistry
     pagehideSubs := [] },
   if env.supported then [Effect.addEnterListener] else [])

/-- `open()`.  `resp` is the outcome of the awaited
`documentPictureInPicture.requestWindow` call (`none` = the promise
rejects).  Returns the resolved value, the new state and the effect
trace; rejection is caught (`console.error`, resolve `undefined`). -/
def openOp (env : Env) (resp : Option Window) (s : Ctrl) :
    Option Window × Ctrl × List Effect :=
  if !env.supported then (none, s, [])
  else
    match s.pipWindow with
    | some w => (some w, s, [])
    | none =>
      let reqOpts := buildRequestOptions s.options
      match resp with
      | none => (none, s, [Effect.requestWindow reqOpts, Effect.logError])
      | some w =>
        let s1 : Ctrl :=
          { s with
            pipWindow := some w
            isOpen := true
            pagehideSubs := s.pagehideSubs ++ [w] }
        (some w, s1,
          [Effect.requestWindow reqOpts, Effect.addPagehideListener w]
            ++ (if s.options.copyStyles then [Effect.copyStylesEff w] else [])
            ++ (if s.options.hasOnOpen then [Effect.callOnOpen w] else [])
            ++ emitEffects env s1 .evOpen
            ++ emitEffects env s1 .evStatechange)

/-- `_handlePageHide(event)`: clear the fields, run `onClose`, emit
`close` then `statechange`. -/
def handlePageHideOp (env : Env) (s : Ctrl) : Ctrl × List Effect :=
  let s1 := { s with isOpen := false, pipWindow := none }
  (s1,
    (if s.options.hasOnClose then [Effect.callOnClose] else [])
      ++ emitEffects env s1 .evClose
      ++ emitEffects env s1 .evStatechange)

/-- `_handleEnter(event)`: adopt `event.window`, emit `open` then
`statechange`.  No `pagehide` listener is registered and `onOpen` is not
invoked. -/
def handleEnterOp (env : Env) (w : Window) (s : Ctrl) : Ctrl × List Effect :=
  let s1 := { s with pipWindow := some w, isOpen := true }
  (s1, emitEffects env s1 .evOpen ++ emitEffects env s1 .evStatechange)

/-- The platform closing window `w`: the `pagehide` event fires on `w`.
Because `open()` registered the handler with `{ once: true }`, the
subscription is consumed; a controller holding no subscription on `w`
hears nothing. -/
def platformCloseOp (env : Env) (w : Window) (s : Ctrl) : Ctrl × List Effect :=
  if w ∈ s.pagehideSubs then
    handlePageHideOp env { s with pagehideSubs := s.pagehideSubs.erase w }
  else (s, [])

/-- `close()`: request the platform close the active window; no field of
the controller changes synchronously. -/
def closeOp (s : Ctrl) : Ctrl × List Effect :=
  match s.pipWindow with
  | some w => (s, [Effect.closeWindow w])
  | none => (s, [])

/-- `resize(width, height)`. -/
def resizeOp (s : Ctrl) (x y : Int) : Ctrl × List Effect :=
  match s.pipWindow with
  | some w => (s, [Effect.resizeTo w x y])
  | none => (s, [])

/-- `resizeBy(deltaWidth, deltaHeight)`. -/
def resizeByOp (s : Ctrl) (dx dy : Int) : Ctrl × List Effect :=
  match s.pipWindow with
  | some w => (s, [Effect.resizeByAmount w dx dy])
  | none => (s, [])

/-- `focusOpener()`: `if (typeof window !== 'undefined') window.focus()`. -/
def focusOpenerOp (env : Env) (s : Ctrl) : Ctrl × List Effect :=
  (s, if env.hasWindow then [Effect.focusMain] else [])

/-- `updateOptions(options)`: shallow merge into `_options`. -/
def updateOptionsOp (p : OptionsPatch) (s : Ctrl) : Ctrl :=
  { s with options := mergeOptions s.options p }

/-- JS `Set.add`: append in insertion order unless already present. -/
def addListener (ls : List Listener) (l : Listener) : List Listener :=
  if l ∈ ls then ls else ls ++ [l]

/-- `on(type, listener)` (state part; the returned unsubscribe closure
performs the same deletion as `off`). -/
def onOp (t : EventType) (l : Listener) (s : Ctrl) : Ctrl :=
  { s with registry := s.registry.set t (addListener (s.registry.get t) l) }

/-- `off(type, listener)`: `this._listeners.get(type)?.delete(listener)`. -/
def offOp (t : EventType) (l : Listener) (s : Ctrl) : Ctrl :=
  { s with registry := s.registry.set t ((s.registry.get t).erase l) }

/-- `dispose()`: remove the `pagehide` listener from the active window and
close it (when one is active), remove the `enter` listener from the
capability object (whenever the API is supported), clear all fields. -/
def disposeOp (env : Env) (s : Ctrl) : Ctrl × List Effect :=
  let winEffs : List Effect :=
    match s.pipWindow with
    | some w => [Effect.removePagehideListener w, Effect.closeWindow w]
    | none => []
  let subs1 : List Window :=
    match s.pipWindow with
    | some w => s.pagehideSubs.erase w
    | none => s.pagehideSubs
  ({ s with
      pipWindow := none
      isOpen := false
      registry := emptyRegistry
      pagehideSubs := subs1 },
   winEffs ++ (if env.supported then [Effect.removeEnterListener] else []))

/-!
The `for (const listener of listeners) listener(state)` loop of `_emit`
iterates a live JS `Set` while listener callbacks may call the
unsubscribe closure (`set.delete`).  JS `Set` iteration visits the
elements in insertion order, skipping any element that has been deleted
before being reached; deleting an already-visited element does not
disturb the rest of the pass.  `emitPass rem pending live` embeds this:
`pending` is the insertion order at pass start, `live` the current set
contents, and `rem l` the listeners that listener `l` deletes from this
kind's set during its own callback.  It returns the listeners invoked,
in order.
-/

def emitPass (rem : Listener → List Listener) :
    List Listener → List Listener → List Listener
  | [], _ => []
  | l :: rest, live =>
    if l ∈ live then
      l :: emitPass rem rest ((rem l).foldl List.erase live)
    else
      emitPass rem rest live

/-!
Style replicator (`copyDocumentStylesToWindow` in
`packages/core/src/utils.ts`).  A `CSSStyleSheet` is embedded by the
three things the function reads: its rule texts (`none` when accessing
`cssRules` throws, e.g. cross-origin), its `href` (`string | null`) and
its `media.mediaText`.  The target document head is a list of elements,
appended to in place.
-/

structure StyleSheet where
  cssRules : Option (List String)
  href : Option String
  mediaText : String
deriving DecidableEq, Repr

/-- An element of the target document head. -/
inductive HeadElem where
  | styleEl (text : String)
  | linkEl (rel : String) (href : String) (media : Option String)
deriving DecidableEq, Repr

/-- The loop body of `copyDocumentStylesToWindow` for one stylesheet: the
elements it appends to the target head.  `try`: join the rule texts with
a newline into one style element; `catch`: when `styleSheet.href` is
truthy, a `rel="stylesheet"` link, carrying `media` only when
`media.mediaText` is truthy; nothing otherwise. -/
def sheetElems (sh : StyleSheet) : List HeadElem :=
  match sh.cssRules with
  | some rules => [HeadElem.styleEl (String.intercalate "\n" rules)]
  | none =>
    match sh.href with
    | some h =>
      if h = "" then []
      else
        [HeadElem.linkEl "stylesheet" h
          (if sh.mediaText = "" then none else some sh.mediaText)]
    | none => []

/-- `copyDocumentStylesToWindow(targetWindow)`: iterate
`document.styleSheets` in order, appending each sheet's elements to the
target window's document head. -/
def copyDocumentStylesToWindow (sheets : List StyleSheet) (head : List HeadElem) :
    List HeadElem :=
  sheets.foldl (fun acc sh => acc ++ sheetElems sh) head

/-!
Concrete fixtures used to instantiate theorems with hypotheses.
-/

/-- A supported browser environment. -/
def envT : Env := { hasWindow := true, hasCapability := true }

/-- A freshly constructed controller, default options. -/
def ctrl0 : Ctrl := (initCtrl envT emptyPatch).1

/-- `ctrl0` after a successful `open()` that resolved with window 5. -/
def ctrlOpen : Ctrl := (openOp envT (some 5) ctrl0).2.1

/-- `ctrl0` with listener 1 and 2 subscribed to `open`, 3 to `close`,
4 to `statechange`. -/
def ctrlSub : Ctrl :=
  onOp EventType.evStatechange 4
    (onOp EventType.evClose 3
      (onOp EventType.evOpen 2 (onOp EventType.evOpen 1 ctrl0)))

/-- Whether an effect is a listener event delivery. -/
def isDeliver : Effect → Bool
  | .deliver _ _ _ => true
  | _ => false

/-- How many deliveries of kind `t` to listener `l` a trace contains. -/
def deliveredCount (effs : List Effect) (t : EventType) (l : Listener) : Nat :=
  effs.countP fun e =>
    match e with
    | .deliver t2 l2 _ => t2 == t && l2 == l
    | _ => false

/-- The readable stylesheet of the spec scenario in §8. -/
def sheetA : StyleSheet :=
  { cssRules := some [".a\x7bcolor:red\x7d", ".b\x7bcolor:blue\x7d"]
    href := none
    mediaText := "" }

/-- The cross-origin stylesheet of the spec scenario in §8. -/
def sheetB : StyleSheet :=
  { cssRules := none
    href := some "https://cdn.example/x.css"
    mediaText := "print" }

/-- The controller invariant of the spec: `activeWindow` is present if
and only if `isOpen` is true. -/
def wfCtrl (s : Ctrl) : Prop :=
  s.pipWindow ≠ none ↔ s.isOpen = true

instance (s : Ctrl) : Decidable (wfCtrl s) := by
  unfold wfCtrl
  infer_instance

/-!
Theorems.
-/

/-- C3: for every controller state satisfying the invariant, `pipWindow`
is non-null iff `isOpen` is true, and every operation of the controller
(construction, open with any request outcome, close, the pagehide
handler, the enter handler, dispose, updateOptions, resize, resizeBy,
focusOpener, on, off) preserves the invariant. -/
theorem window_iff_open_invariant (env : Env) (s : Ctrl) (h : wfCtrl s)
    (u p : OptionsPatch) (resp : Option Window) (w : Window)
    (x y dx dy : Int) (t : EventType) (l : Listener) :
    wfCtrl (initCtrl env u).1
    ∧ wfCtrl (openOp env resp s).2.1
    ∧ wfCtrl (closeOp s).1
    ∧ wfCtrl (handlePageHideOp env s).1
    ∧ wfCtrl (handleEnterOp env w s).1
    ∧ wfCtrl (disposeOp env s).1
    ∧ wfCtrl (updateOptionsOp p s)
    ∧ wfCtrl (resizeOp s x y).1
    ∧ wfCtrl (resizeByOp s dx dy).1
    ∧ wfCtrl (focusOpenerOp env s).1
    ∧ wfCtrl (onOp t l s)
    ∧ wfCtrl (offOp t l s) := by
  refine ⟨by simp [wfCtrl, initCtrl], ?_, ?_, ?_, ?_, ?_, ?_, ?_, ?_, ?_, ?_, ?_⟩
  · cases hsup : env.supported with
    | false => simpa [openOp, hsup] using h
    | true =>
      cases hpw : s.pipWindow with
      | some w2 => simpa [openOp, hsup, hpw] using h
      | none =>
        cases resp with
        | none => simpa [openOp, hsup, hpw] using h
        | some w2 => simp [openOp, hsup, hpw, wfCtrl]
  · cases hpw : s.pipWindow <;> simpa [closeOp, hpw] using h
  · simp [handlePageHideOp, wfCtrl]
  · simp [handleEnterOp, wfCtrl]
  · simp [disposeOp, wfCtrl]
  · simpa [updateOptionsOp, wfCtrl] using h
  · cases hpw : s.pipWindow <;> simpa [resizeOp, hpw] using h
  · cases hpw : s.pipWindow <;> simpa [resizeByOp, hpw] using h
  · simpa [focusOpenerOp] using h
  · simpa [onOp, wfCtrl] using h
  · simpa [offOp, wfCtrl] using h

/-- Witness for C3 at a concrete state. -/
theorem window_iff_open_invariant_witness :
    wfCtrl ctrlOpen
    ∧ (wfCtrl (openOp envT (some 9) ctrlOpen).2.1
        ∧ wfCtrl (closeOp ctrlOpen).1
        ∧ wfCtrl (handlePageHideOp envT ctrlOpen).1
        ∧ wfCtrl (handleEnterOp envT 9 ctrlOpen).1
        ∧ wfCtrl (disposeOp envT ctrlOpen).1
        ∧ wfCtrl (updateOptionsOp emptyPatch ctrlOpen)
        ∧ wfCtrl (resizeOp ctrlOpen 3 4).1
        ∧ wfCtrl (resizeByOp ctrlOpen 1 1).1
        ∧ wfCtrl (focusOpenerOp envT ctrlOpen).1
        ∧ wfCtrl (onOp EventType.evOpen 1 ctrlOpen)
        ∧ wfCtrl (offOp EventType.evOpen 1 ctrlOpen)) :=
  ⟨by decide,
   (window_iff_open_invariant envT ctrlOpen (by decide) emptyPatch emptyPatch
      (some 9) 9 3 4 1 1 EventType.evOpen 1).2⟩

/-- C4: when the platform request issued by `open()` rejects, `open()`
resolves to `undefined`, the controller state is unchanged, and the only
interactions are the request itself and the diagnostic log — no
exception reaches the caller (the embedding of `open()` is a total
function whose rejection branch is the `catch` block). -/
theorem open_reject_atomic (env : Env) (s : Ctrl)
    (hsup : env.supported = true) (hclosed : s.pipWindow = none) :
    openOp env none s
      = (none, s,
         [Effect.requestWindow (buildRequestOptions s.options), Effect.logError]) := by
  simp [openOp, hsup, hclosed]

/-- Witness for C4 at a concrete state. -/
theorem open_reject_atomic_witness :
    openOp envT none ctrl0
      = (none, ctrl0,
         [Effect.requestWindow (buildRequestOptions ctrl0.options), Effect.logError]) :=
  open_reject_atomic envT ctrl0 (by decide) (by decide)

/-- C7: `open()` on a controller whose window is already open returns the
currently active window and performs no effect at all (no platform
request, no style copy, no `onOpen`, no event emission), leaving the
state unchanged.  `env.supported = true` is required because `isOpen`
states are only reachable while the capability is exposed; were the
capability gone, the guard at the top of `open()` would win instead. -/
theorem open_already_open (env : Env) (resp : Option Window) (s : Ctrl) (w : Window)
    (hsup : env.supported = true) (hopen : s.pipWindow = some w) :
    openOp env resp s = (some w, s, []) := by
  simp [openOp, hsup, hopen]

/-- Witness for C7: a second `open()` on `ctrlOpen` returns window 5. -/
theorem open_already_open_witness :
    openOp envT (some 9) ctrlOpen = (some 5, ctrlOpen, []) :=
  open_already_open envT (some 9) ctrlOpen 5 (by decide) (by decide)

/-- C9: `close()` never changes the controller state synchronously: with
an active window its only effect is the platform close request, with no
active window it does nothing; the `isOpen`/`pipWindow` fields are
cleared only by the pagehide handler. -/
theorem close_defers_state_change (env : Env) (s s2 : Ctrl) :
    (closeOp s).1 = s
    ∧ (∀ w, s.pipWindow = some w → (closeOp s).2 = [Effect.closeWindow w])
    ∧ (s.pipWindow = none → closeOp s = (s, []))
    ∧ (handlePageHideOp env s2).1.isOpen = false
    ∧ (handlePageHideOp env s2).1.pipWindow = none := by
  refine ⟨?_, ?_, ?_, by simp [handlePageHideOp], by simp [handlePageHideOp]⟩
  · cases hpw : s.pipWindow <;> simp [closeOp, hpw]
  · intro w hw
    simp [closeOp, hw]
  · intro hw
    simp [closeOp, hw]

/-- Witness for C9 at concrete open and closed states. -/
theorem close_defers_state_change_witness :
    (closeOp ctrlOpen).2 = [Effect.closeWindow 5] ∧ closeOp ctrl0 = (ctrl0, []) :=
  ⟨(close_defers_state_change envT ctrlOpen ctrl0).2.1 5 (by decide),
   (close_defers_state_change envT ctrl0 ctrl0).2.2.1 (by decide)⟩

/-- C1 counterexample: the code keeps no disposed flag, so disposal is
not terminal.  On a freshly disposed controller in a supported
environment, `open()` issues a new platform request, resolves with a new
window and re-opens (`isOpen` becomes true), and `focusOpener()` still
performs the `window.focus()` platform call — refuting the claim that
after `dispose()` every such call performs no platform request and that
`open()` resolves to an absent result. -/
theorem dispose_not_terminal_cex :
    (openOp envT (some 7) (disposeOp envT ctrl0).1).1 = some 7
    ∧ ((openOp envT (some 7) (disposeOp envT ctrl0).1).2.1).isOpen = true
    ∧ Effect.requestWindow (buildRequestOptions (disposeOp envT ctrl0).1.options)
        ∈ (openOp envT (some 7) (disposeOp envT ctrl0).1).2.2
    ∧ (focusOpenerOp envT (disposeOp envT ctrl0).1).2 = [Effect.focusMain] := by
  decide

/-- C1 amended: after `dispose()`, `close()`, `resize()` and `resizeBy()`
are safe no-ops (no throw, no state change, no platform request) and
`focusOpener()` changes no state; but disposal is not terminal:
`focusOpener()` still issues the `window.focus()` call whenever a window
context exists, and a subsequent `open()` is not blocked — in a
supported environment it issues a fresh platform request and re-opens a
window. -/
theorem dispose_not_terminal (env : Env) (s : Ctrl) (x y dx dy : Int) (w : Window) :
    closeOp (disposeOp env s).1 = ((disposeOp env s).1, [])
    ∧ resizeOp (disposeOp env s).1 x y = ((disposeOp env s).1, [])
    ∧ resizeByOp (disposeOp env s).1 dx dy = ((disposeOp env s).1, [])
    ∧ (focusOpenerOp env (disposeOp env s).1).1 = (disposeOp env s).1
    ∧ (env.hasWindow = true →
        (focusOpenerOp env (disposeOp env s).1).2 = [Effect.focusMain])
    ∧ (env.supported = true →
        (openOp env (some w) (disposeOp env s).1).1 = some w
        ∧ ((openOp env (some w) (disposeOp env s).1).2.1).isOpen = true
        ∧ Effect.requestWindow (buildRequestOptions (disposeOp env s).1.options)
            ∈ (openOp env (some w) (disposeOp env s).1).2.2) := by
  refine ⟨by simp [closeOp, disposeOp], by simp [resizeOp, disposeOp],
    by simp [resizeByOp, disposeOp], by simp [focusOpenerOp], ?_, ?_⟩
  · intro hw
    simp [focusOpenerOp, hw]
  · intro hsup
    refine ⟨?_, ?_, ?_⟩ <;> simp [openOp, hsup, disposeOp]

/-- Witness for C1 amended at a concrete disposed controller. -/
theorem dispose_not_terminal_witness :
    closeOp (disposeOp envT ctrlOpen).1 = ((disposeOp envT ctrlOpen).1, [])
    ∧ (focusOpenerOp envT (disposeOp envT ctrlOpen).1).2 = [Effect.focusMain]
    ∧ (openOp envT (some 8) (disposeOp envT ctrlOpen).1).1 = some 8 :=
  ⟨(dispose_not_terminal envT ctrlOpen 1 2 3 4 8).1,
   (dispose_not_terminal envT ctrlOpen 1 2 3 4 8).2.2.2.2.1 (by decide),
   ((dispose_not_terminal envT ctrlOpen 1 2 3 4 8).2.2.2.2.2 (by decide)).1⟩

/-- C6 counterexample: the second `dispose()` call is not free of
platform interaction — whenever the API is supported it repeats the
`removeEventListener('enter', ...)` call on the platform capability
object, because `dispose()` guards that call only on support, not on a
disposed flag. -/
theorem dispose_second_call_cex :
    (disposeOp envT (disposeOp envT ctrlOpen).1).2 = [Effect.removeEnterListener] := by
  decide

/-- C6 amended: `dispose()` is idempotent on state — two calls produce
exactly the end state of one (window reference cleared, `isOpen` false,
listener registry empty) — and the second call performs no window close
and no pagehide-listener removal; its only platform interaction is
repeating the harmless `enter`-listener removal when the API is
supported. -/
theorem dispose_idempotent_end_state (env : Env) (s : Ctrl) :
    (disposeOp env (disposeOp env s).1).1 = (disposeOp env s).1
    ∧ (disposeOp env (disposeOp env s).1).2
        = (if env.supported then [Effect.removeEnterListener] else [])
    ∧ (disposeOp env s).1.pipWindow = none
    ∧ (disposeOp env s).1.isOpen = false
    ∧ (disposeOp env s).1.registry = emptyRegistry := by
  refine ⟨?_, ?_, by simp [disposeOp], by simp [disposeOp], by simp [disposeOp]⟩
  · simp [disposeOp]
  · simp [disposeOp]

/-- C10: a window adopted through the `enter` handler gets no pagehide
subscription and no `onOpen` call: the handler only sets
`pipWindow`/`isOpen` and emits `open` then `statechange`; consequently a
later platform closure of the adopted window reaches no handler of this
controller, so no close transition occurs. -/
theorem enter_adoption_no_close_hook (env : Env) (w : Window) (s : Ctrl)
    (hw : w ∉ s.pagehideSubs) :
    (handleEnterOp env w s).1.pipWindow = some w
    ∧ (handleEnterOp env w s).1.isOpen = true
    ∧ (handleEnterOp env w s).1.pagehideSubs = s.pagehideSubs
    ∧ (handleEnterOp env w s).1.registry = s.registry
    ∧ (handleEnterOp env w s).1.options = s.options
    ∧ (handleEnterOp env w s).2
        = emitEffects env (handleEnterOp env w s).1 EventType.evOpen
          ++ emitEffects env (handleEnterOp env w s).1 EventType.evStatechange
    ∧ (∀ w2, Effect.addPagehideListener w2 ∉ (handleEnterOp env w s).2)
    ∧ (∀ w2, Effect.callOnOpen w2 ∉ (handleEnterOp env w s).2)
    ∧ platformCloseOp env w (handleEnterOp env w s).1
        = ((handleEnterOp env w s).1, []) := by
  refine ⟨rfl, rfl, rfl, rfl, rfl, rfl, ?_, ?_, ?_⟩
  · intro w2
    simp [handleEnterOp, emitEffects]
  · intro w2
    simp [handleEnterOp, emitEffects]
  · have hw1 : w ∉ (handleEnterOp env w s).1.pagehideSubs := hw
    simp [platformCloseOp, hw1]

/-- Witness for C10: adoption of window 7 by a fresh controller, whose
later platform closure is not observed. -/
theorem enter_adoption_no_close_hook_witness :
    (handleEnterOp envT 7 ctrl0).1.pipWindow = some 7
    ∧ platformCloseOp envT 7 (handleEnterOp envT 7 ctrl0).1
        = ((handleEnterOp envT 7 ctrl0).1, []) :=
  ⟨(enter_adoption_no_close_hook envT 7 ctrl0 (by decide)).1,
   (enter_adoption_no_close_hook envT 7 ctrl0 (by decide)).2.2.2.2.2.2.2.2⟩

/-- Folding append-of-per-sheet-elements over the sheet list appends the
concatenation of the per-sheet contributions. -/
theorem foldl_append_sheetElems (l : List StyleSheet) (head : List HeadElem) :
    l.foldl (fun acc sh => acc ++ sheetElems sh) head
      = head ++ (l.map sheetElems).flatten := by
  induction l generalizing head with
  | nil => simp
  | cons sh rest ih => simp [ih, List.append_assoc]

/-- C8: the style replicator only appends to the target head, in document
order: a readable stylesheet contributes exactly one inline style
element whose text is its rule texts joined by a newline; an unreadable
stylesheet with a (truthy) href contributes exactly one
`rel="stylesheet"` link with that href, carrying the media qualifier
only when non-empty; an unreadable stylesheet without an href
contributes nothing. -/
theorem style_replicator_appends (sheets : List StyleSheet) (head : List HeadElem) :
    copyDocumentStylesToWindow sheets head = head ++ (sheets.map sheetElems).flatten
    ∧ (∀ sh : StyleSheet, ∀ rules, sh.cssRules = some rules →
        sheetElems sh = [HeadElem.styleEl (String.intercalate "\n" rules)])
    ∧ (∀ sh : StyleSheet, ∀ h2, sh.cssRules = none → sh.href = some h2 → h2 ≠ "" →
        sheetElems sh
          = [HeadElem.linkEl "stylesheet" h2
              (if sh.mediaText = "" then none else some sh.mediaText)])
    ∧ (∀ sh : StyleSheet, sh.cssRules = none → sh.href = none →
        sheetElems sh = []) := by
  refine ⟨foldl_append_sheetElems sheets head, ?_, ?_, ?_⟩
  · intro sh rules hr
    simp [sheetElems, hr]
  · intro sh h2 hr hh hne
    simp [sheetElems, hr, hh, hne]
  · intro sh hr hh
    simp [sheetElems, hr, hh]

/-- Witness for C8: the spec's two-stylesheet scenario.  The target head
receives, after its existing content, exactly one style element with the
two rules joined by a newline, then exactly one `rel="stylesheet"` link
with the cross-origin href and `media="print"`. -/
theorem style_replicator_appends_witness :
    copyDocumentStylesToWindow [sheetA, sheetB] [HeadElem.styleEl "p \x7b margin:0 \x7d"]
      = [HeadElem.styleEl "p \x7b margin:0 \x7d"]
          ++ (List.map sheetElems [sheetA, sheetB]).flatten
    ∧ sheetElems sheetA
        = [HeadElem.styleEl
            (String.intercalate "\n" [".a\x7bcolor:red\x7d", ".b\x7bcolor:blue\x7d"])]
    ∧ sheetElems sheetB
        = [HeadElem.linkEl "stylesheet" "https://cdn.example/x.css"
            (if sheetB.mediaText = "" then none else some sheetB.mediaText)]
    ∧ String.intercalate "\n" [".a\x7bcolor:red\x7d", ".b\x7bcolor:blue\x7d"]
        = ".a\x7bcolor:red\x7d\n.b\x7bcolor:blue\x7d"
    ∧ (if sheetB.mediaText = "" then (none : Option String) else some sheetB.mediaText)
        = some "print" :=
  ⟨(style_replicator_appends [sheetA, sheetB] [HeadElem.styleEl "p \x7b margin:0 \x7d"]).1,
   (style_replicator_appends [sheetA, sheetB] []).2.1 sheetA
     [".a\x7bcolor:red\x7d", ".b\x7bcolor:blue\x7d"] rfl,
   (style_replicator_appends [sheetA, sheetB] []).2.2.1 sheetB
     "https://cdn.example/x.css" rfl rfl (by decide),
   by decide, by decide⟩

/-- An element differing from everything a fold erases survives the fold. -/
theorem mem_foldl_erase_of_ne (a : Listener) (xs : List Listener) (live : List Listener)
    (hne : ∀ y ∈ xs, a ≠ y) (ha : a ∈ live) :
    a ∈ xs.foldl List.erase live := by
  induction xs generalizing live with
  | nil => simpa using ha
  | cons x rest ih =>
    exact ih (live.erase x) (fun y hy => hne y (List.mem_cons_of_mem _ hy))
      ((List.mem_erase_of_ne (hne x (List.mem_cons_self _ _))).mpr ha)

/-- When every callback only ever deletes the listener itself, the pass
invokes every pending listener that is live, in order. -/
theorem emitPass_all_invoked (rem : Listener → List Listener)
    (pending : List Listener) (live : List Listener)
    (hnd : pending.Nodup) (hsub : ∀ l ∈ pending, l ∈ live)
    (hself : ∀ l ∈ pending, ∀ x ∈ rem l, x = l) :
    emitPass rem pending live = pending := by
  induction pending generalizing live with
  | nil => simp [emitPass]
  | cons l rest ih =>
    have hl : l ∈ live := hsub l (List.mem_cons_self _ _)
    rw [emitPass, if_pos hl]
    have hnd2 := List.nodup_cons.mp hnd
    congr 1
    refine ih ((rem l).foldl List.erase live) hnd2.2 ?_
      (fun l2 h2 => hself l2 (List.mem_cons_of_mem _ h2))
    intro l2 h2
    refine mem_foldl_erase_of_ne l2 (rem l) live ?_ (hsub l2 (List.mem_cons_of_mem _ h2))
    intro y hy
    rw [hself l (List.mem_cons_self _ _) y hy]
    intro hcontra
    exact hnd2.1 (hcontra ▸ h2)

/-- C5: during an emit pass over the live listener set, a listener that
unsubscribes itself from within its own callback causes no exception
(`emitPass` is total), and every listener that was registered for the
event kind when the pass began — itself and all others — is still
invoked in that same pass, in registration order. -/
theorem emit_self_unsubscribe_safe (ls : List Listener) (rem : Listener → List Listener)
    (hnd : ls.Nodup) (hself : ∀ l ∈ ls, ∀ x ∈ rem l, x = l) :
    emitPass rem ls ls = ls :=
  emitPass_all_invoked rem ls ls hnd (fun _ h => h) hself

/-- Witness for C5: listener 2 unsubscribes itself mid-pass; all of
1, 2, 3 are still invoked. -/
theorem emit_self_unsubscribe_safe_witness :
    emitPass (fun l => if l = 2 then [2] else []) [1, 2, 3] [1, 2, 3] = [1, 2, 3] :=
  emit_self_unsubscribe_safe [1, 2, 3] (fun l => if l = 2 then [2] else [])
    (by decide) (by decide)

/-- Every effect an emit produces is a delivery. -/
theorem filter_isDeliver_emitEffects (env : Env) (s : Ctrl) (t : EventType) :
    (emitEffects env s t).filter isDeliver = emitEffects env s t := by
  apply List.filter_eq_self.mpr
  intro e he
  simp only [emitEffects, List.mem_map] at he
  obtain ⟨l, _, rfl⟩ := he
  rfl

theorem deliveredCount_append (a b : List Effect) (t : EventType) (l : Listener) :
    deliveredCount (a ++ b) t l = deliveredCount a t l + deliveredCount b t l := by
  simp [deliveredCount, List.countP_append]

/-- Deliveries of the emitted kind: one per registry occurrence. -/
theorem deliveredCount_emitEffects_same (env : Env) (s : Ctrl) (t : EventType)
    (l : Listener) :
    deliveredCount (emitEffects env s t) t l = (s.registry.get t).count l := by
  unfold deliveredCount emitEffects
  rw [List.countP_map]
  have hp : ((fun e =>
        match e with
        | Effect.deliver t2 l2 _ => t2 == t && l2 == l
        | _ => false) ∘ fun l2 => Effect.deliver t l2 (s.snapshot env))
      = fun l2 => l2 == l := by
    funext l2
    simp
  rw [hp]
  rfl

/-- An emit of one kind delivers nothing of another kind. -/
theorem deliveredCount_emitEffects_ne (env : Env) (s : Ctrl) (t t2 : EventType)
    (l : Listener) (h : ¬t = t2) :
    deliveredCount (emitEffects env s t) t2 l = 0 := by
  unfold deliveredCount emitEffects
  rw [List.countP_map]
  apply List.countP_eq_zero.mpr
  intro a _
  simp [Function.comp, h]

/-- The effect trace of a successful `open()`. -/
theorem openOp_effects (env : Env) (s : Ctrl) (w : Window)
    (hsup : env.supported = true) (hclosed : s.pipWindow = none) :
    (openOp env (some w) s).2.2
      = [Effect.requestWindow (buildRequestOptions s.options),
         Effect.addPagehideListener w]
        ++ (if s.options.copyStyles then [Effect.copyStylesEff w] else [])
        ++ (if s.options.hasOnOpen then [Effect.callOnOpen w] else [])
        ++ emitEffects env (openOp env (some w) s).2.1 EventType.evOpen
        ++ emitEffects env (openOp env (some w) s).2.1 EventType.evStatechange := by
  simp [openOp, hsup, hclosed]

/-- `open()` does not change the listener registry. -/
theorem openOp_registry (env : Env) (s : Ctrl) (w : Window)
    (hsup : env.supported = true) (hclosed : s.pipWindow = none) :
    ((openOp env (some w) s).2.1).registry = s.registry := by
  simp [openOp, hsup, hclosed]

/-- The effect trace of the pagehide handler. -/
theorem pageHide_effects (env : Env) (s : Ctrl) :
    (handlePageHideOp env s).2
      = (if s.options.hasOnClose then [Effect.callOnClose] else [])
        ++ emitEffects env (handlePageHideOp env s).1 EventType.evClose
        ++ emitEffects env (handlePageHideOp env s).1 EventType.evStatechange := by
  simp [handlePageHideOp]

/-- The pagehide handler does not change the listener registry. -/
theorem pageHide_registry (env : Env) (s : Ctrl) :
    (handlePageHideOp env s).1.registry = s.registry := rfl

/-- C2: over a successful open transition every listener registered for
`open` receives exactly one `open` delivery and every listener
registered for `statechange` exactly one `statechange` delivery, the
`open` deliveries all preceding the `statechange` deliveries; the close
transition (pagehide handler) likewise delivers exactly one `close`
then one `statechange` per registered listener; no `close` deliveries
occur on open, no `open` deliveries on close, and `resize`, `resizeBy`
and `focusOpener` deliver no events at all. -/
theorem open_close_event_emissions (env : Env) (s s2 : Ctrl) (w : Window)
    (x y dx dy : Int)
    (hsup : env.supported = true) (hclosed : s.pipWindow = none)
    (hndO : (s.registry.get EventType.evOpen).Nodup)
    (hndC : (s.registry.get EventType.evClose).Nodup)
    (hndS : (s.registry.get EventType.evStatechange).Nodup) :
    ((openOp env (some w) s).2.2).filter isDeliver
      = (s.registry.get EventType.evOpen).map
          (fun l => Effect.deliver EventType.evOpen l
            (((openOp env (some w) s).2.1).snapshot env))
        ++ (s.registry.get EventType.evStatechange).map
          (fun l => Effect.deliver EventType.evStatechange l
            (((openOp env (some w) s).2.1).snapshot env))
    ∧ (∀ l ∈ s.registry.get EventType.evOpen,
        deliveredCount (openOp env (some w) s).2.2 EventType.evOpen l = 1)
    ∧ (∀ l ∈ s.registry.get EventType.evStatechange,
        deliveredCount (openOp env (some w) s).2.2 EventType.evStatechange l = 1)
    ∧ (∀ l, deliveredCount (openOp env (some w) s).2.2 EventType.evClose l = 0)
    ∧ ((handlePageHideOp env s).2).filter isDeliver
      = (s.registry.get EventType.evClose).map
          (fun l => Effect.deliver EventType.evClose l
            (((handlePageHideOp env s).1).snapshot env))
        ++ (s.registry.get EventType.evStatechange).map
          (fun l => Effect.deliver EventType.evStatechange l
            (((handlePageHideOp env s).1).snapshot env))
    ∧ (∀ l ∈ s.registry.get EventType.evClose,
        deliveredCount (handlePageHideOp env s).2 EventType.evClose l = 1)
    ∧ (∀ l ∈ s.registry.get EventType.evStatechange,
        deliveredCount (handlePageHideOp env s).2 EventType.evStatechange l = 1)
    ∧ (∀ l, deliveredCount (handlePageHideOp env s).2 EventType.evOpen l = 0)
    ∧ (resizeOp s2 x y).2.filter isDeliver = []
    ∧ (resizeByOp s2 dx dy).2.filter isDeliver = []
    ∧ (focusOpenerOp env s2).2.filter isDeliver = [] := by
  have hregO := openOp_registry env s w hsup hclosed
  have hregP := pageHide_registry env s
  refine ⟨?_, ?_, ?_, ?_, ?_, ?_, ?_, ?_, ?_, ?_, ?_⟩
  · rw [openOp_effects env s w hsup hclosed]
    rw [List.filter_append, List.filter_append, List.filter_append,
      List.filter_append, filter_isDeliver_emitEffects, filter_isDeliver_emitEffects]
    cases hcs : s.options.copyStyles <;> cases hoo : s.options.hasOnOpen <;>
      simp [isDeliver, emitEffects, hregO]
  · intro l hl
    rw [openOp_effects env s w hsup hclosed]
    rw [deliveredCount_append, deliveredCount_append, deliveredCount_append,
      deliveredCount_append, deliveredCount_emitEffects_same,
      deliveredCount_emitEffects_ne env _ EventType.evStatechange EventType.evOpen l
        (by decide), hregO]
    rw [List.count_eq_one_of_mem hndO hl]
    cases hcs : s.options.copyStyles <;> cases hoo : s.options.hasOnOpen <;>
      simp [deliveredCount]
  · intro l hl
    rw [openOp_effects env s w hsup hclosed]
    rw [deliveredCount_append, deliveredCount_append, deliveredCount_append,
      deliveredCount_append, deliveredCount_emitEffects_same,
      deliveredCount_emitEffects_ne env _ EventType.evOpen EventType.evStatechange l
        (by decide), hregO]
    rw [List.count_eq_one_of_mem hndS hl]
    cases hcs : s.options.copyStyles <;> cases hoo : s.options.hasOnOpen <;>
      simp [deliveredCount]
  · intro l
    rw [openOp_effects env s w hsup hclosed]
    rw [deliveredCount_append, deliveredCount_append, deliveredCount_append,
      deliveredCount_append,
      deliveredCount_emitEffects_ne env _ EventType.evOpen EventType.evClose l
        (by decide),
      deliveredCount_emitEffects_ne env _ EventType.evStatechange EventType.evClose l
        (by decide)]
    cases hcs : s.options.copyStyles <;> cases hoo : s.options.hasOnOpen <;>
      simp [deliveredCount]
  · rw [pageHide_effects env s]
    rw [List.filter_append, List.filter_append,
      filter_isDeliver_emitEffects, filter_isDeliver_emitEffects]
    cases hoc : s.options.hasOnClose <;> simp [isDeliver, emitEffects, hregP]
  · intro l hl
    rw [pageHide_effects env s]
    rw [deliveredCount_append, deliveredCount_append,
      deliveredCount_emitEffects_same,
      deliveredCount_emitEffects_ne env _ EventType.evStatechange EventType.evClose l
        (by decide), hregP]
    rw [List.count_eq_one_of_mem hndC hl]
    cases hoc : s.options.hasOnClose <;> simp [deliveredCount]
  · intro l hl
    rw [pageHide_effects env s]
    rw [deliveredCount_append, deliveredCount_append,
      deliveredCount_emitEffects_same,
      deliveredCount_emitEffects_ne env _ EventType.evClose EventType.evStatechange l
        (by decide), hregP]
    rw [List.count_eq_one_of_mem hndS hl]
    cases hoc : s.options.hasOnClose <;> simp [deliveredCount]
  · intro l
    rw [pageHide_effects env s]
    rw [deliveredCount_append, deliveredCount_append,
      deliveredCount_emitEffects_ne env _ EventType.evClose EventType.evOpen l
        (by decide),
      deliveredCount_emitEffects_ne env _ EventType.evStatechange EventType.evOpen l
        (by decide)]
    cases hoc : s.options.hasOnClose <;> simp [deliveredCount]
  · cases hpw : s2.pipWindow <;> simp [resizeOp, hpw, isDeliver]
  · cases hpw : s2.pipWindow <;> simp [resizeByOp, hpw, isDeliver]
  · cases hw : env.hasWindow <;> simp [focusOpenerOp, hw, isDeliver]

/-- Witness for C2 on a controller with listeners 1, 2 on `open`, 3 on
`close`, 4 on `statechange`. -/
theorem open_close_event_emissions_witness :
    deliveredCount (openOp envT (some 5) ctrlSub).2.2 EventType.evOpen 1 = 1
    ∧ deliveredCount (openOp envT (some 5) ctrlSub).2.2 EventType.evStatechange 4 = 1
    ∧ deliveredCount (openOp envT (some 5) ctrlSub).2.2 EventType.evClose 3 = 0
    ∧ deliveredCount (handlePageHideOp envT ctrlSub).2 EventType.evClose 3 = 1
    ∧ (resizeOp ctrlOpen 3 4).2.filter isDeliver = []
    ∧ (focusOpenerOp envT ctrlOpen).2.filter isDeliver = [] := by
  have h := open_close_event_emissions envT ctrlSub ctrlOpen 5 3 4 1 1
    (by decide) (by decide) (by decide) (by decide) (by decide)
  exact ⟨h.2.1 1 (by decide), h.2.2.1 4 (by decide), h.2.2.2.1 3,
    h.2.2.2.2.2.1 3 (by decide), h.2.2.2.2.2.2.2.2.1, h.2.2.2.2.2.2.2.2.2.2⟩

end PiP
